import Mathlib

/-!
Verification development for the Oracle dialect adapter
(src/src/dialects/oracle/index.js).

The adapter is shallowly embedded: JavaScript scalar values become the
inductive type `Prim`, the driver connection becomes an explicit record
threaded through `queryImpl` (the embedding of `_query`), the driver itself
is a call-indexed function from call number and arguments to a result, and
the streaming helper `_stream` becomes a step function over the sequence of
events observed on the sink and on the driver result stream.
-/

namespace KnexOracle

/-- A driver error: JavaScript Error objects are observed by this module only
through their `message` string. -/
structure OraError where
  message : String
deriving DecidableEq, Repr

/-- JavaScript scalar values as this module distinguishes them: booleans,
numbers, strings, null, undefined, binary buffers, the ReturningHelper
marker object, and the driver OutParam object allocated for it. -/
inductive Prim where
  | pbool (b : Bool)
  | pint (n : Int)
  | pstr (s : String)
  | pnull
  | pundef
  | pbuffer (bytes : List Nat)
  | pReturningHelper
  | pOutParam
deriving DecidableEq, Repr

/-- A response row: a JavaScript object, a finite ordered association of
property names to values. -/
abbrev Row : Type := List (String × Prim)

/-- Property read on a row, as lodash map with a property-name iteratee does:
the value stored under the name, or undefined when the name is absent. -/
def rowGet (row : Row) (col : String) : Prim :=
  (row.lookup col).getD Prim.pundef

/-- lodash values: the list of property values of a row, in property order. -/
def rowValues (row : Row) : List Prim :=
  row.map Prod.snd

/-- Modelled from the spec: `bufferToString` lives in src/query/string, which
is outside the provided source tree. Per section 4.2 a binary buffer is
decoded to its textual representation; the concrete encoding is irrelevant
to every claim, only that the result is a string. -/
def bufferToString (bytes : List Nat) : String :=
  String.mk (bytes.map (fun b => Char.ofNat (b % 256)))

/-- One element of prepBindings (src lines 64-76): a ReturningHelper becomes
a driver OutParam when a driver handle is present, a boolean becomes the
integer 1 or 0, a buffer is decoded to a string, anything else passes
through unchanged. -/
def prepBindingValue (hasDriver : Bool) : Prim → Prim
  | Prim.pReturningHelper =>
    if hasDriver then Prim.pOutParam else Prim.pReturningHelper
  | Prim.pbool b => Prim.pint (if b then 1 else 0)
  | Prim.pbuffer bytes => Prim.pstr (bufferToString bytes)
  | v => v

/-- prepBindings (src lines 64-76): elementwise translation of the binding
list. -/
def prepBindings (hasDriver : Bool) (bindings : List Prim) : List Prim :=
  bindings.map (prepBindingValue hasDriver)

/-- The fixed catalog of connection-fatal message codes (src lines 198-229). -/
def connectionErrors : List String :=
  [ "ORA-03114"
  , "ORA-03113"
  , "ORA-03135"
  , "ORA-12514"
  , "ORA-22"
  , "ORA-28"
  , "ORA-31"
  , "ORA-45"
  , "ORA-378"
  , "ORA-602"
  , "ORA-603"
  , "ORA-609"
  , "ORA-1012"
  , "ORA-1041"
  , "ORA-1043"
  , "ORA-1089"
  , "ORA-1092"
  , "ORA-2396"
  , "ORA-3122"
  , "ORA-12153"
  , "ORA-12537"
  , "ORA-12547"
  , "ORA-12570"
  , "ORA-12583"
  , "ORA-27146"
  , "ORA-28511"
  , "ORA-56600"
  , "NJS-040"
  , "NJS-024"
  , "NJS-003"
  ]

/-- isConnectionError (src lines 231-233): the message starts at offset 0
with one of the cataloged codes; indexOf(p) equal to 0 is exactly a string
starting with p. -/
def isConnectionError (err : OraError) : Bool :=
  connectionErrors.any (fun p => p.data.isPrefixOf err.message.data)

/-- Decimal digit characters of a natural number, as template literal
interpolation renders the counter. -/
def natDigits (n : Nat) : List Char :=
  (Nat.repr n).data

/-- Worker for positionBindings (src lines 110-116): n counts the question
marks already replaced; each question mark is replaced by a colon followed
by the value of the incremented counter, every other character is kept. -/
def positionBindingsAux : List Char → Nat → List Char
  | [], _ => []
  | c :: cs, n =>
    if c = '?' then ':' :: (natDigits (n + 1) ++ positionBindingsAux cs (n + 1))
    else c :: positionBindingsAux cs n

/-- positionBindings (src lines 110-116): global replacement of question
marks by sequential numbered markers, counter starting at 1. -/
def positionBindings (sql : String) : String :=
  String.mk (positionBindingsAux sql.data 0)

/-- Spec-side decomposition: the maximal question-mark-free segments of the
text, in order; a text with k question marks yields k + 1 segments. -/
def splitSegs : List Char → List (List Char)
  | [] => [[]]
  | c :: cs =>
    if c = '?' then [] :: splitSegs cs
    else
      match splitSegs cs with
      | [] => [[c]]
      | s :: rest => (c :: s) :: rest

/-- Spec-side recomposition: the segments interleaved with numbered markers
starting at the given index. -/
def joinSegs : List (List Char) → Nat → List Char
  | [], _ => []
  | s :: rest, n =>
    match rest with
    | [] => s
    | _ :: _ => s ++ (':' :: natDigits n) ++ joinSegs rest (n + 1)

/-- Rendering of the specified rewriter contract: split on question marks
and rejoin with markers numbered from 1, preserving every other character
verbatim. -/
def positionBindingsSpec (sql : String) : String :=
  String.mk (joinSegs (splitSegs sql.data) 1)

theorem splitSegs_ne_nil (cs : List Char) : splitSegs cs ≠ [] := by
  cases cs with
  | nil => simp [splitSegs]
  | cons c cs =>
    unfold splitSegs
    by_cases h : c = '?'
    · simp [h]
    · simp only [h, if_false]
      cases hs : splitSegs cs <;> simp

theorem positionBindingsAux_eq_join (cs : List Char) :
    ∀ n, positionBindingsAux cs n = joinSegs (splitSegs cs) (n + 1) := by
  induction cs with
  | nil => intro n; rfl
  | cons c cs ih =>
    intro n
    by_cases h : c = '?'
    · subst h
      obtain ⟨s, rest, hs⟩ :
          ∃ s rest, splitSegs cs = s :: rest := by
        cases hsp : splitSegs cs with
        | nil => exact absurd hsp (splitSegs_ne_nil cs)
        | cons s rest => exact ⟨s, rest, rfl⟩
      simp only [positionBindingsAux, splitSegs, if_pos rfl, ih, hs, joinSegs]
      simp
    · obtain ⟨s, rest, hs⟩ :
          ∃ s rest, splitSegs cs = s :: rest := by
        cases hsp : splitSegs cs with
        | nil => exact absurd hsp (splitSegs_ne_nil cs)
        | cons s rest => exact ⟨s, rest, rfl⟩
      simp only [positionBindingsAux, splitSegs, h, if_false, ih, hs]
      cases rest with
      | nil => simp [joinSegs]
      | cons r rs => simp [joinSegs]

theorem positionBindingsAux_id (cs : List Char) :
    ∀ n, '?' ∉ cs → positionBindingsAux cs n = cs := by
  induction cs with
  | nil => intro n _; rfl
  | cons c cs ih =>
    intro n h
    have hc : ¬ c = '?' := by
      intro hq
      exact h (hq ▸ List.mem_cons_self c cs)
    have hcs : '?' ∉ cs := fun hm => h (List.mem_cons_of_mem c hm)
    simp [positionBindingsAux, hc, ih n hcs]

/-- A raw driver response object. The node driver returns row arrays for
selects and an object carrying updateCount plus the returnParam output slots
for mutating statements; both views are fields of one record here. A field
the driver did not set is read as undefined (rows empty, updateCount none,
slot lookup misses). -/
structure Response where
  rows : List Row := []
  updateCount : Option Int := none
  slots : List (String × Prim) := []
deriving DecidableEq

/-- Named property read on a response object: the value of the slot, or
undefined when the driver did not set it. -/
def slotGet (r : Response) (name : String) : Prim :=
  (r.slots.lookup name).getD Prim.pundef

/-- The output slot name used by the template literal in _query
(src line 150): index 0 gives no suffix, a positive index gives its decimal
rendering as suffix. -/
def returnParamName (i : Nat) : String :=
  if i = 0 then "returnParam" else "returnParam" ++ Nat.repr i

/-- Row-identifier extraction in _query (src lines 149-151): one slot per
entry of outParams, read positionally; the callback ignores the entry value
and uses only its index. -/
def extractRowIds (r : Response) (outParams : List Prim) : List Prim :=
  (List.range outParams.length).map (fun i => slotGet r (returnParamName i))

/-- The shapes processResponse can hand back to the caller: the raw response
object, a list of scalar values, a single row (or undefined), or the
rowsAffected count. -/
inductive Processed where
  | raw (r : Option Response)
  | vals (vs : List Prim)
  | firstRow (r : Option Row)
  | count (n : Option Int)
deriving DecidableEq

/-- The dialect-neutral query descriptor, including the fields _query and
processResponse mutate or read. The optional output field is the custom
output transform escape hatch. -/
structure QueryObj where
  sql : String
  bindings : List Prim := []
  method : String := ""
  returning : Option (List String) := none
  outParams : List Prim := []
  returningSql : String := ""
  pluck : String := ""
  output : Option (Option Response → Processed) := none
  response : Option Response := none
  rowsAffected : Option Int := none

/-- A leased connection: the driver behavior as a function of the call
number, the count and log of executeAsync calls issued on it, and the
knex disposed marker written on fatal errors. -/
structure Connection where
  exec : Nat → String → List Prim → Except OraError Response
  callCount : Nat := 0
  calls : List (String × List Prim) := []
  disposed : Option OraError := none

/-- One executeAsync round-trip: logs the call on the connection and hands
back the driver outcome for this call number. -/
def executeAsync (c : Connection) (sql : String) (bindings : List Prim) :
    Connection × Except OraError Response :=
  ({ c with
      callCount := c.callCount + 1
      calls := c.calls ++ [(sql, bindings)] },
   c.exec c.callCount sql bindings)

/-- The error thrown by _query on an empty sql text (src line 143). -/
def emptyQueryError : OraError :=
  { message := "The query is empty" }

/-- The catch handler of _query (src lines 159-164): a connection-fatal
error sets the disposed marker to that very error, a query-level error
leaves the connection untouched; the error itself is rethrown by the
caller of this helper. -/
def markIfFatal (c : Connection) (e : OraError) : Connection :=
  if isConnectionError e then { c with disposed := some e } else c

/-- The success continuation of _query (src lines 154-157): store the final
response on the descriptor and copy its updateCount into rowsAffected. -/
def setResult (obj : QueryObj) (r : Response) : QueryObj :=
  { obj with response := some r, rowsAffected := r.updateCount }

/-- _query (src lines 142-165): reject an empty sql before any round-trip;
execute sql with the bindings; without returning, finalize on the first
response; with returning, extract the row identifiers from the first
response and execute returningSql with them, finalizing on the second
response; on any driver error, classify it, possibly mark the connection
disposed, and surface the error unchanged. The third component is the
surfaced error, none on success. -/
def queryImpl (c : Connection) (obj : QueryObj) :
    Connection × QueryObj × Option OraError :=
  if obj.sql = "" then (c, obj, some emptyQueryError)
  else
    match executeAsync c obj.sql obj.bindings with
    | (c1, Except.error e) => (markIfFatal c1 e, obj, some e)
    | (c1, Except.ok r1) =>
      match obj.returning with
      | none => (c1, setResult obj r1, none)
      | some _ =>
        match executeAsync c1 obj.returningSql (extractRowIds r1 obj.outParams) with
        | (c2, Except.error e) => (markIfFatal c2 e, obj, some e)
        | (c2, Except.ok r2) => (c2, setResult obj r2, none)

/-- processResponse (src lines 168-193): a custom output transform bypasses
everything; select, pluck and first operate on the response as a row array
(pluck maps rows to the designated column, first takes index 0); insert,
del, update and counter with returning hand back the raw response for more
than one requested column or the star sentinel and otherwise flatten all
row values, and without returning hand back rowsAffected; any other method
hands back the raw response. -/
def processResponse (obj : QueryObj) : Processed :=
  match obj.output with
  | some f => f obj.response
  | none =>
    if obj.method = "select" ∨ obj.method = "pluck" ∨ obj.method = "first" then
      let rows := match obj.response with
        | some r => r.rows
        | none => []
      if obj.method = "pluck" then
        Processed.vals (rows.map (fun row => rowGet row obj.pluck))
      else if obj.method = "first" then Processed.firstRow rows.head?
      else Processed.raw obj.response
    else if obj.method = "insert" ∨ obj.method = "del" ∨ obj.method = "update"
        ∨ obj.method = "counter" then
      match obj.returning with
      | some rs =>
        if rs.length > 1 ∨ rs.head? = some "*" then Processed.raw obj.response
        else
          Processed.vals
            (((match obj.response with
              | some r => r.rows
              | none => []).map rowValues).flatten)
      | none => Processed.count obj.rowsAffected
    else Processed.raw obj.response

/-- The claimed reading of the lone-returning-column case: one value per
response row, taken from the requested column. -/
def loneColumnValues (rows : List Row) (col : String) : List Prim :=
  rows.map (fun row => rowGet row col)

/-- The events _stream (src lines 118-138) reacts to: an error event on the
caller-supplied sink, the end event on the sink, and an error event on the
driver result stream. The end of the driver stream reaches the sink through
pipe and is observed as sinkEnd. -/
inductive StreamEvent where
  | sinkError (e : OraError)
  | sinkEnd
  | queryStreamError (e : OraError)

/-- The observable state of one streaming query: the connection disposed
marker, the settlement of the promise (none while pending, then ok for the
resolver and error for the rejecter, first settlement wins), and the error
events re-emitted into the sink for observers. -/
structure StreamRun where
  disposed : Option OraError
  settled : Option (Except OraError Unit)
  sinkEmitted : List OraError

/-- Promise settlement: a later resolve or reject of an already settled
promise is a no-op. -/
def settleWith (cur : Option (Except OraError Unit)) (r : Except OraError Unit) :
    Option (Except OraError Unit) :=
  match cur with
  | some x => some x
  | none => some r

/-- The sink error handler of _stream (src lines 120-125): classify the
error, mark the connection disposed when fatal, and reject the promise. -/
def sinkErrorStep (st : StreamRun) (e : OraError) : StreamRun :=
  { st with
    disposed := if isConnectionError e then some e else st.disposed
    settled := settleWith st.settled (Except.error e) }

/-- One event step of _stream: a sink error runs the sink error handler, the
sink end resolves the promise, and a driver stream error first rejects the
promise and then re-emits the error on the sink, which synchronously runs
the sink error handler on it. -/
def streamStep (st : StreamRun) : StreamEvent → StreamRun
  | StreamEvent.sinkError e => sinkErrorStep st e
  | StreamEvent.sinkEnd =>
    { st with settled := settleWith st.settled (Except.ok ()) }
  | StreamEvent.queryStreamError e =>
    sinkErrorStep
      { st with
          settled := settleWith st.settled (Except.error e)
          sinkEmitted := st.sinkEmitted ++ [e] } e

/-- The whole streaming run: fold the step function over the observed event
sequence, starting from a pending promise on a connection with the given
disposed marker. -/
def runStream (d0 : Option OraError) (evs : List StreamEvent) : StreamRun :=
  evs.foldl streamStep { disposed := d0, settled := none, sinkEmitted := [] }

/-- The terminal outcome an event would deliver on a pending promise. -/
def eventOutcome : StreamEvent → Except OraError Unit
  | StreamEvent.sinkError e => Except.error e
  | StreamEvent.sinkEnd => Except.ok ()
  | StreamEvent.queryStreamError e => Except.error e

/-- The errors carried by an event sequence, from either source, in order. -/
def streamErrorsOf : List StreamEvent → List OraError
  | [] => []
  | StreamEvent.sinkError e :: t => e :: streamErrorsOf t
  | StreamEvent.sinkEnd :: t => streamErrorsOf t
  | StreamEvent.queryStreamError e :: t => e :: streamErrorsOf t

/-- The errors carried by driver stream error events only, in order. -/
def qsErrorsOf : List StreamEvent → List OraError
  | [] => []
  | StreamEvent.queryStreamError e :: t => e :: qsErrorsOf t
  | _ :: t => qsErrorsOf t

/-- Disposal bookkeeping over a list of observed errors: each fatal error
overwrites the marker, others leave it alone. -/
def lastFatal (d0 : Option OraError) (es : List OraError) : Option OraError :=
  es.foldl (fun d e => if isConnectionError e then some e else d) d0

theorem streamStep_settled_some (st : StreamRun) (ev : StreamEvent)
    (x : Except OraError Unit) (h : st.settled = some x) :
    (streamStep st ev).settled = some x := by
  cases ev <;> simp [streamStep, sinkErrorStep, settleWith, h]

theorem foldl_streamStep_settled_some (evs : List StreamEvent) :
    ∀ st : StreamRun, ∀ x, st.settled = some x →
      (evs.foldl streamStep st).settled = some x := by
  induction evs with
  | nil => intro st x h; simpa using h
  | cons ev t ih =>
    intro st x h
    simpa using ih (streamStep st ev) x (streamStep_settled_some st ev x h)

theorem foldl_streamStep_settled (evs : List StreamEvent) :
    ∀ st : StreamRun, st.settled = none →
      (evs.foldl streamStep st).settled = evs.head?.map eventOutcome := by
  induction evs with
  | nil => intro st h; simpa using h
  | cons ev t _ =>
    intro st h
    have hstep : (streamStep st ev).settled = some (eventOutcome ev) := by
      cases ev <;> simp [streamStep, sinkErrorStep, settleWith, eventOutcome, h]
    simpa using foldl_streamStep_settled_some t (streamStep st ev) _ hstep

theorem foldl_streamStep_emitted (evs : List StreamEvent) :
    ∀ st : StreamRun,
      (evs.foldl streamStep st).sinkEmitted = st.sinkEmitted ++ qsErrorsOf evs := by
  induction evs with
  | nil => intro st; simp [qsErrorsOf]
  | cons ev t ih =>
    intro st
    cases ev with
    | sinkError e =>
      simp only [List.foldl_cons, ih, streamStep, sinkErrorStep, qsErrorsOf]
    | sinkEnd =>
      simp only [List.foldl_cons, ih, streamStep, qsErrorsOf]
    | queryStreamError e =>
      simp only [List.foldl_cons, ih, streamStep, sinkErrorStep, qsErrorsOf]
      simp

theorem foldl_streamStep_disposed (evs : List StreamEvent) :
    ∀ st : StreamRun,
      (evs.foldl streamStep st).disposed =
        lastFatal st.disposed (streamErrorsOf evs) := by
  induction evs with
  | nil => intro st; simp [lastFatal, streamErrorsOf]
  | cons ev t ih =>
    intro st
    cases ev with
    | sinkError e =>
      simp [ih, streamStep, sinkErrorStep, streamErrorsOf, lastFatal]
    | sinkEnd =>
      simp [ih, streamStep, streamErrorsOf]
    | queryStreamError e =>
      simp [ih, streamStep, sinkErrorStep, streamErrorsOf, lastFatal]

theorem queryImpl_empty (c : Connection) (obj : QueryObj) (hsql : obj.sql = "") :
    queryImpl c obj = (c, obj, some emptyQueryError) := by
  simp [queryImpl, hsql]

theorem queryImpl_firstError (c : Connection) (obj : QueryObj) (e : OraError)
    (hsql : ¬ obj.sql = "")
    (h1 : c.exec c.callCount obj.sql obj.bindings = Except.error e) :
    queryImpl c obj =
      (markIfFatal
        { c with
            callCount := c.callCount + 1
            calls := c.calls ++ [(obj.sql, obj.bindings)] } e,
       obj, some e) := by
  simp [queryImpl, executeAsync, hsql, h1]

theorem queryImpl_noReturning (c : Connection) (obj : QueryObj) (r : Response)
    (hsql : ¬ obj.sql = "") (hret : obj.returning = none)
    (h1 : c.exec c.callCount obj.sql obj.bindings = Except.ok r) :
    queryImpl c obj =
      ({ c with
          callCount := c.callCount + 1
          calls := c.calls ++ [(obj.sql, obj.bindings)] },
       setResult obj r, none) := by
  simp [queryImpl, executeAsync, hsql, h1, hret]

theorem queryImpl_returning_ok (c : Connection) (obj : QueryObj)
    (rs : List String) (r1 r2 : Response)
    (hsql : ¬ obj.sql = "") (hret : obj.returning = some rs)
    (h1 : c.exec c.callCount obj.sql obj.bindings = Except.ok r1)
    (h2 : c.exec (c.callCount + 1) obj.returningSql
        (extractRowIds r1 obj.outParams) = Except.ok r2) :
    queryImpl c obj =
      ({ c with
          callCount := c.callCount + 2
          calls := c.calls ++
            [(obj.sql, obj.bindings),
             (obj.returningSql, extractRowIds r1 obj.outParams)] },
       setResult obj r2, none) := by
  simp [queryImpl, executeAsync, hsql, h1, hret, h2]

theorem queryImpl_returning_err (c : Connection) (obj : QueryObj)
    (rs : List String) (r1 : Response) (e : OraError)
    (hsql : ¬ obj.sql = "") (hret : obj.returning = some rs)
    (h1 : c.exec c.callCount obj.sql obj.bindings = Except.ok r1)
    (h2 : c.exec (c.callCount + 1) obj.returningSql
        (extractRowIds r1 obj.outParams) = Except.error e) :
    queryImpl c obj =
      (markIfFatal
        { c with
            callCount := c.callCount + 2
            calls := c.calls ++
              [(obj.sql, obj.bindings),
               (obj.returningSql, extractRowIds r1 obj.outParams)] } e,
       obj, some e) := by
  simp [queryImpl, executeAsync, hsql, h1, hret, h2]

/-- Every failing run with a non-empty sql surfaces exactly a driver error
unchanged, leaves the descriptor untouched, and updates the disposed marker
if and only if the error is connection-fatal. -/
theorem queryImpl_error_inv (c : Connection) (obj : QueryObj) (e : OraError)
    (hsql : ¬ obj.sql = "") (herr : (queryImpl c obj).2.2 = some e) :
    (∃ n s bs, c.exec n s bs = Except.error e) ∧
    (queryImpl c obj).2.1 = obj ∧
    (isConnectionError e = true → (queryImpl c obj).1.disposed = some e) ∧
    (isConnectionError e = false → (queryImpl c obj).1.disposed = c.disposed) := by
  cases hE0 : c.exec c.callCount obj.sql obj.bindings with
  | error e0 =>
    have hq := queryImpl_firstError c obj e0 hsql hE0
    rw [hq] at herr
    obtain rfl : e0 = e := by simpa using herr
    refine ⟨⟨c.callCount, obj.sql, obj.bindings, hE0⟩, ?_, ?_, ?_⟩
    · rw [hq]
    · intro hF; rw [hq]; simp [markIfFatal, hF]
    · intro hF; rw [hq]; simp [markIfFatal, hF]
  | ok r1 =>
    cases hret : obj.returning with
    | none =>
      have hq := queryImpl_noReturning c obj r1 hsql hret hE0
      rw [hq] at herr
      simp at herr
    | some rs =>
      cases hE1 : c.exec (c.callCount + 1) obj.returningSql
          (extractRowIds r1 obj.outParams) with
      | error e1 =>
        have hq := queryImpl_returning_err c obj rs r1 e1 hsql hret hE0 hE1
        rw [hq] at herr
        obtain rfl : e1 = e := by simpa using herr
        refine ⟨⟨c.callCount + 1, obj.returningSql,
            extractRowIds r1 obj.outParams, hE1⟩, ?_, ?_, ?_⟩
        · rw [hq]
        · intro hF; rw [hq]; simp [markIfFatal, hF]
        · intro hF; rw [hq]; simp [markIfFatal, hF]
      | ok r2 =>
        have hq := queryImpl_returning_ok c obj rs r1 r2 hsql hret hE0 hE1
        rw [hq] at herr
        simp at herr

/-- C3: for every SQL text, the placeholder rewriter agrees with the
split-and-renumber reading of the contract (the i-th question mark becomes
a colon followed by i, counted from 1, all other characters preserved
verbatim), and on a text without question marks it is the identity. -/
theorem oracle_C3 (sql : String) :
    positionBindings sql = positionBindingsSpec sql ∧
    ('?' ∉ sql.data → positionBindings sql = sql) := by
  constructor
  · unfold positionBindings positionBindingsSpec
    rw [positionBindingsAux_eq_join]
  · intro h
    unfold positionBindings
    rw [positionBindingsAux_id sql.data 0 h]

theorem oracle_C3_witness :
    positionBindings (String.mk ['s', '=', '?', '+', '?']) =
      positionBindingsSpec (String.mk ['s', '=', '?', '+', '?']) ∧
    positionBindings (String.mk ['a', 'b']) = String.mk ['a', 'b'] :=
  ⟨(oracle_C3 (String.mk ['s', '=', '?', '+', '?'])).1,
   (oracle_C3 (String.mk ['a', 'b'])).2 (by decide)⟩

theorem prepBindingValue_idem (d : Bool) (v : Prim) :
    prepBindingValue d (prepBindingValue d v) = prepBindingValue d v := by
  cases v <;> cases d <;> rfl

/-- C7: binding translation maps the boolean true to the integer 1 and
false to the integer 0, and re-running the translator on its own output
leaves every element unchanged. -/
theorem oracle_C7 (d : Bool) (bs : List Prim) (b : Bool) :
    prepBindingValue d (Prim.pbool b) = Prim.pint (if b then 1 else 0) ∧
    prepBindings d (prepBindings d bs) = prepBindings d bs := by
  refine ⟨rfl, ?_⟩
  unfold prepBindings
  induction bs with
  | nil => rfl
  | cons v t ih => simp [prepBindingValue_idem, ih]

/-- C6: over every sequence of sink and driver stream events, the promise is
settled exactly once, by the first event (sink end resolves success, the
first error from either source resolves failure, later events never change
the settlement); every driver stream error is re-emitted on the sink; and
disposal marking with the same fatal-error classification as ordinary
execution is applied to every observed stream error. -/
theorem oracle_C6 (d0 : Option OraError) (evs : List StreamEvent) :
    (runStream d0 evs).settled = evs.head?.map eventOutcome ∧
    (runStream d0 evs).sinkEmitted = qsErrorsOf evs ∧
    (runStream d0 evs).disposed = lastFatal d0 (streamErrorsOf evs) := by
  unfold runStream
  refine ⟨foldl_streamStep_settled evs _ rfl, ?_, ?_⟩
  · simpa using foldl_streamStep_emitted evs _
  · simpa using foldl_streamStep_disposed evs _

/-- C2: every error surfaced by a non-empty-sql run is classified
connection-fatal exactly when its message starts with a cataloged code at
offset 0; a fatal classification sets the disposed marker to that very
error, a query-level classification leaves the marker untouched, and the
surfaced error is one the driver itself returned, unchanged. -/
theorem oracle_C2 (c : Connection) (obj : QueryObj) (e : OraError)
    (hsql : ¬ obj.sql = "") (herr : (queryImpl c obj).2.2 = some e) :
    (isConnectionError e = true ↔
      ∃ p ∈ connectionErrors, p.data.isPrefixOf e.message.data = true) ∧
    (isConnectionError e = true → (queryImpl c obj).1.disposed = some e) ∧
    (isConnectionError e = false → (queryImpl c obj).1.disposed = c.disposed) ∧
    (∃ n s bs, c.exec n s bs = Except.error e) := by
  obtain ⟨hres, _, hmark, hkeep⟩ := queryImpl_error_inv c obj e hsql herr
  exact ⟨by simp [isConnectionError, List.any_eq_true], hmark, hkeep, hres⟩

def c2err : OraError :=
  { message := "ORA-03113: end-of-file on communication channel" }

def c2conn : Connection :=
  { exec := fun _ _ _ => Except.error c2err }

def c2obj : QueryObj :=
  { sql := "select 1 from dual" }

theorem oracle_C2_witness :
    (isConnectionError c2err = true ↔
      ∃ p ∈ connectionErrors, p.data.isPrefixOf c2err.message.data = true) ∧
    (isConnectionError c2err = true →
      (queryImpl c2conn c2obj).1.disposed = some c2err) ∧
    (isConnectionError c2err = false →
      (queryImpl c2conn c2obj).1.disposed = c2conn.disposed) ∧
    (∃ n s bs, c2conn.exec n s bs = Except.error c2err) :=
  oracle_C2 c2conn c2obj c2err (by decide) (by decide)

/-- C4: a run with no returning field and a successful execute issues
exactly one round-trip, surfaces no error, stores the first response as the
final response, and copies its update count into rowsAffected. -/
theorem oracle_C4 (c : Connection) (obj : QueryObj) (r : Response)
    (hsql : ¬ obj.sql = "") (hret : obj.returning = none)
    (h1 : c.exec c.callCount obj.sql obj.bindings = Except.ok r) :
    (queryImpl c obj).1.calls = c.calls ++ [(obj.sql, obj.bindings)] ∧
    (queryImpl c obj).2.2 = none ∧
    (queryImpl c obj).2.1.response = some r ∧
    (queryImpl c obj).2.1.rowsAffected = r.updateCount := by
  rw [queryImpl_noReturning c obj r hsql hret h1]
  exact ⟨rfl, rfl, rfl, rfl⟩

def c4resp : Response :=
  { rows := [], updateCount := some 3, slots := [] }

def c4conn : Connection :=
  { exec := fun _ _ _ => Except.ok c4resp }

def c4obj : QueryObj :=
  { sql := "update t set x = :1", bindings := [Prim.pint 9] }

theorem oracle_C4_witness :
    (queryImpl c4conn c4obj).1.calls =
      c4conn.calls ++ [(c4obj.sql, c4obj.bindings)] ∧
    (queryImpl c4conn c4obj).2.2 = none ∧
    (queryImpl c4conn c4obj).2.1.response = some c4resp ∧
    (queryImpl c4conn c4obj).2.1.rowsAffected = c4resp.updateCount :=
  oracle_C4 c4conn c4obj c4resp (by decide) rfl rfl

/-- C5: a run whose sql text is empty fails immediately with the
empty-query error and leaves the connection untouched, so no driver call is
logged and the call counter does not move. -/
theorem oracle_C5 (c : Connection) (obj : QueryObj) (hsql : obj.sql = "") :
    queryImpl c obj = (c, obj, some emptyQueryError) ∧
    (queryImpl c obj).1.calls = c.calls ∧
    (queryImpl c obj).1.callCount = c.callCount := by
  rw [queryImpl_empty c obj hsql]
  exact ⟨rfl, rfl, rfl⟩

def c5conn : Connection :=
  { exec := fun _ _ _ => Except.ok { rows := [] } }

def c5obj : QueryObj :=
  { sql := "" }

theorem oracle_C5_witness :
    queryImpl c5conn c5obj = (c5conn, c5obj, some emptyQueryError) ∧
    (queryImpl c5conn c5obj).1.calls = c5conn.calls ∧
    (queryImpl c5conn c5obj).1.callCount = c5conn.callCount :=
  oracle_C5 c5conn c5obj rfl

/-- C10: every failing run, whether it fails on the empty-sql check, on the
first round-trip, or on the emulated returning follow-up, leaves the
response and rowsAffected fields of the descriptor exactly as they were
before the call. -/
theorem oracle_C10 (c : Connection) (obj : QueryObj) (e : OraError)
    (herr : (queryImpl c obj).2.2 = some e) :
    (queryImpl c obj).2.1.response = obj.response ∧
    (queryImpl c obj).2.1.rowsAffected = obj.rowsAffected := by
  by_cases hsql : obj.sql = ""
  · rw [queryImpl_empty c obj hsql]
    exact ⟨rfl, rfl⟩
  · obtain ⟨_, hobj, _, _⟩ := queryImpl_error_inv c obj e hsql herr
    rw [hobj]
    exact ⟨rfl, rfl⟩

def c10err : OraError :=
  { message := "ORA-00001: unique constraint violated" }

def c10resp0 : Response :=
  { rows := [], updateCount := some 7, slots := [] }

def c10conn : Connection :=
  { exec := fun _ _ _ => Except.error c10err }

def c10obj : QueryObj :=
  { sql := "insert into t values (:1)"
    bindings := [Prim.pint 4]
    response := some c10resp0
    rowsAffected := some 7 }

theorem oracle_C10_witness :
    (queryImpl c10conn c10obj).2.1.response = c10obj.response ∧
    (queryImpl c10conn c10obj).2.1.rowsAffected = c10obj.rowsAffected :=
  oracle_C10 c10conn c10obj c10err (by decide)

/-- Rendering of the claim wording for the output slot names: the first
slot with no numeric suffix, subsequent slots suffixed 2, 3, and so on. -/
def claimedSlotName (i : Nat) : String :=
  if i = 0 then "returnParam" else "returnParam" ++ Nat.repr (i + 1)

/-- The row identifiers the claim says are read from the first response. -/
def claimedRowIds (r : Response) (outParams : List Prim) : List Prim :=
  (List.range outParams.length).map (fun i => slotGet r (claimedSlotName i))

def c1resp1 : Response :=
  { rows := []
    updateCount := some 2
    slots :=
      [("returnParam", Prim.pstr "ROWID-A"),
       ("returnParam1", Prim.pstr "ROWID-B"),
       ("returnParam2", Prim.pstr "ROWID-C")] }

def c1resp2 : Response :=
  { rows := [[("id", Prim.pint 7)], [("id", Prim.pint 8)]]
    updateCount := none
    slots := [] }

def c1conn : Connection :=
  { exec := fun n _ _ => if n = 0 then Except.ok c1resp1 else Except.ok c1resp2 }

def c1obj : QueryObj :=
  { sql := "insert into t (x) values (:1), (:2)"
    bindings := [Prim.pint 1, Prim.pint 2]
    method := "insert"
    returning := some ["id"]
    outParams := [Prim.pReturningHelper, Prim.pReturningHelper]
    returningSql := "select id from t where ROWID in (:1, :2)" }

/-- Counterexample to C1 as stated: with two outParams the code reads the
slots returnParam and returnParam1, so the follow-up bindings differ from
the claimed slots returnParam and returnParam2. -/
theorem oracle_C1_counterexample :
    (queryImpl c1conn c1obj).1.calls.getLast? =
      some (c1obj.returningSql, [Prim.pstr "ROWID-A", Prim.pstr "ROWID-B"]) ∧
    claimedRowIds c1resp1 c1obj.outParams =
      [Prim.pstr "ROWID-A", Prim.pstr "ROWID-C"] ∧
    ¬ [Prim.pstr "ROWID-A", Prim.pstr "ROWID-B"] =
        [Prim.pstr "ROWID-A", Prim.pstr "ROWID-C"] := by
  refine ⟨by decide, by decide, by decide⟩

/-- C1 (amended): with returning set and both round-trips succeeding, the
executor issues exactly one follow-up execute of returningSql whose
bindings are read positionally from the output slots of the first response,
the first slot with no numeric suffix and the slot at zero-based index i
suffixed with i (so 1, 2, and so on), and the final response is the second
result, not the first. -/
theorem oracle_C1 (c : Connection) (obj : QueryObj)
    (rs : List String) (r1 r2 : Response)
    (hsql : ¬ obj.sql = "") (hret : obj.returning = some rs)
    (h1 : c.exec c.callCount obj.sql obj.bindings = Except.ok r1)
    (h2 : c.exec (c.callCount + 1) obj.returningSql
        (extractRowIds r1 obj.outParams) = Except.ok r2) :
    (queryImpl c obj).1.calls =
      c.calls ++ [(obj.sql, obj.bindings),
        (obj.returningSql, extractRowIds r1 obj.outParams)] ∧
    extractRowIds r1 obj.outParams =
      (List.range obj.outParams.length).map
        (fun i => slotGet r1
          (if i = 0 then "returnParam" else "returnParam" ++ Nat.repr i)) ∧
    (queryImpl c obj).2.1.response = some r2 ∧
    (queryImpl c obj).2.2 = none := by
  rw [queryImpl_returning_ok c obj rs r1 r2 hsql hret h1 h2]
  exact ⟨rfl, rfl, rfl, rfl⟩

theorem oracle_C1_witness :
    (queryImpl c1conn c1obj).1.calls =
      c1conn.calls ++ [(c1obj.sql, c1obj.bindings),
        (c1obj.returningSql, extractRowIds c1resp1 c1obj.outParams)] ∧
    extractRowIds c1resp1 c1obj.outParams =
      (List.range c1obj.outParams.length).map
        (fun i => slotGet c1resp1
          (if i = 0 then "returnParam" else "returnParam" ++ Nat.repr i)) ∧
    (queryImpl c1conn c1obj).2.1.response = some c1resp2 ∧
    (queryImpl c1conn c1obj).2.2 = none :=
  oracle_C1 c1conn c1obj ["id"] c1resp1 c1resp2 (by decide) rfl rfl rfl

theorem processResponse_mutating (obj : QueryObj)
    (hout : obj.output = none)
    (hm : obj.method = "insert" ∨ obj.method = "del" ∨ obj.method = "update"
      ∨ obj.method = "counter") :
    processResponse obj =
      match obj.returning with
      | some rs =>
        if rs.length > 1 ∨ rs.head? = some "*" then Processed.raw obj.response
        else
          Processed.vals
            (((match obj.response with
              | some r => r.rows
              | none => []).map rowValues).flatten)
      | none => Processed.count obj.rowsAffected := by
  rcases hm with h | h | h | h <;> simp [processResponse, hout, h]

theorem flatten_singleton_rows (rows : List Row) (a : String)
    (h : ∀ row ∈ rows, ∃ v, row = [(a, v)]) :
    (rows.map rowValues).flatten = loneColumnValues rows a := by
  induction rows with
  | nil => rfl
  | cons row t ih =>
    obtain ⟨v, rfl⟩ := h row (List.mem_cons_self row t)
    have ht : ∀ r ∈ t, ∃ v, r = [(a, v)] :=
      fun r hr => h r (List.mem_cons_of_mem _ hr)
    simp [rowValues, loneColumnValues, rowGet, List.lookup, ih ht]

def c8row : Row := [("id", Prim.pint 1), ("extra", Prim.pint 2)]

def c8obj : QueryObj :=
  { sql := "insert into t"
    method := "insert"
    returning := some ["id"]
    response := some { rows := [c8row], updateCount := some 1, slots := [] }
    rowsAffected := some 1 }

/-- Counterexample to C8 as stated: with returning naming the lone column
id and a response row that carries a second property, normalization hands
back every value of the row, not only the values of the id column. -/
theorem oracle_C8_counterexample :
    processResponse c8obj = Processed.vals [Prim.pint 1, Prim.pint 2] ∧
    loneColumnValues [c8row] "id" = [Prim.pint 1] ∧
    ¬ Processed.vals [Prim.pint 1, Prim.pint 2] =
        Processed.vals [Prim.pint 1] := by
  refine ⟨by decide, by decide, by decide⟩

/-- C8 (amended): for a mutating method without a custom output transform,
returning with more than one column or the star sentinel hands back the raw
response verbatim; returning a lone other column hands back the flattened
sequence of all property values of each response row, which coincides with
that lone column values whenever each row carries exactly that column; and
no returning hands back rowsAffected. -/
theorem oracle_C8 (obj : QueryObj) (r : Response)
    (hout : obj.output = none) (hresp : obj.response = some r)
    (hm : obj.method = "insert" ∨ obj.method = "del" ∨ obj.method = "update"
      ∨ obj.method = "counter") :
    (∀ rs, obj.returning = some rs → (rs.length > 1 ∨ rs.head? = some "*") →
      processResponse obj = Processed.raw (some r)) ∧
    (∀ a, obj.returning = some [a] → ¬ a = "*" →
      processResponse obj = Processed.vals ((r.rows.map rowValues).flatten) ∧
      ((∀ row ∈ r.rows, ∃ v, row = [(a, v)]) →
        (r.rows.map rowValues).flatten = loneColumnValues r.rows a)) ∧
    (obj.returning = none → processResponse obj = Processed.count obj.rowsAffected) := by
  rw [processResponse_mutating obj hout hm]
  refine ⟨?_, ?_, ?_⟩
  · intro rs hrs hcond
    rw [hrs]
    simp only [if_pos hcond, hresp]
  · intro a ha hstar
    constructor
    · simp only [ha, hresp]
      rw [if_neg (by simp [hstar])]
    · intro hrows
      exact flatten_singleton_rows r.rows a hrows
  · intro hnone
    rw [hnone]

def c8wResp : Response :=
  { rows := [[("id", Prim.pint 5)], [("id", Prim.pint 6)]]
    updateCount := some 2
    slots := [] }

def c8wObj : QueryObj :=
  { sql := "insert into t"
    method := "insert"
    returning := some ["id"]
    response := some c8wResp
    rowsAffected := some 2 }

theorem oracle_C8_witness :
    processResponse c8wObj = Processed.vals [Prim.pint 5, Prim.pint 6] := by
  have h := (oracle_C8 c8wObj c8wResp rfl rfl (Or.inl rfl)).2.1 "id" rfl (by decide)
  exact h.1.trans (by decide)

/-- C9: for a descriptor without a custom output transform, normalizing a
select hands back the raw response unchanged, normalizing a pluck hands
back the designated column value of each row, and normalizing a first hands
back only the row at index 0, which on an empty row sequence is the
explicit undefined value rather than an error. -/
theorem oracle_C9 (obj : QueryObj) (r : Response)
    (hout : obj.output = none) (hresp : obj.response = some r) :
    (obj.method = "select" → processResponse obj = Processed.raw (some r)) ∧
    (obj.method = "pluck" →
      processResponse obj =
        Processed.vals (r.rows.map (fun row => rowGet row obj.pluck))) ∧
    (obj.method = "first" →
      processResponse obj = Processed.firstRow r.rows.head?) ∧
    (obj.method = "first" → r.rows = [] →
      processResponse obj = Processed.firstRow none) := by
  refine ⟨?_, ?_, ?_, ?_⟩
  · intro h
    simp [processResponse, hout, hresp, h]
  · intro h
    simp [processResponse, hout, hresp, h]
  · intro h
    simp [processResponse, hout, hresp, h]
  · intro h h0
    simp [processResponse, hout, hresp, h, h0]

def c9wResp : Response :=
  { rows := [], updateCount := none, slots := [] }

def c9wObj : QueryObj :=
  { sql := "select x from t"
    method := "first"
    response := some c9wResp }

theorem oracle_C9_witness :
    processResponse c9wObj = Processed.firstRow none :=
  (oracle_C9 c9wObj c9wResp rfl rfl).2.2.2 rfl rfl

end KnexOracle
